import Mathlib

/-!
Shallow embedding of `src/rust/schema/undefinable/mod.rs`: the `Undefinable`
statement union of the graql schema language, its per-variant constructors,
`Spanned` accessors, derived structural equality, and the `fmt::Display`
canonical renderers.
-/

namespace Graql

/-- Modelled from the spec: `Span` (external `common::Span`, not under src/)
is an optional half-open byte/character range identifying where a node
appeared in source text. -/
structure Span where
  begin_offset : Nat
  end_offset : Nat
deriving DecidableEq, Repr

/-- Modelled from the spec: `Label` (external `type_::Label`, not under src/)
is a (possibly scoped) schema type name, opaque beyond equality and textual
rendering; modelled as its canonical single-line rendering. -/
structure Label where
  name : String
deriving DecidableEq, Repr

/-- The canonical rendering delegated to `Label` (its `fmt::Display`). -/
def Label.render (l : Label) : String := l.name

/-- Modelled from the spec: `Identifier` (external `common::identifier::Identifier`,
not under src/) is a bare name used for functions and structs; modelled as its
canonical rendering. -/
structure Identifier where
  name : String
deriving DecidableEq, Repr

/-- The canonical rendering delegated to `Identifier` (its `fmt::Display`). -/
def Identifier.render (i : Identifier) : String := i.name

/-- Modelled from the spec: `token::Annotation` (external, not under src/) is an
enumerated tag naming a kind of schema annotation; modelled as its canonical
rendering (the category name without the leading at-sign, which the statement
renderer adds itself). -/
structure AnnotationCategory where
  category : String
deriving DecidableEq, Repr

/-- The canonical rendering delegated to the category token (its `fmt::Display`). -/
def AnnotationCategory.render (a : AnnotationCategory) : String := a.category

/-- Modelled from the spec: `CapabilityBase` (external
`schema::definable::type_::CapabilityBase`, not under src/) is a
capability-kind tag (owns, plays, relates, sub) optionally paired with a
related type parameter. -/
inductive CapabilityKind
  | owns
  | plays
  | relates
  | sub
deriving DecidableEq, Repr

/-- Canonical keyword text of a capability kind. -/
def CapabilityKind.render : CapabilityKind → String
  | .owns => "owns"
  | .plays => "plays"
  | .relates => "relates"
  | .sub => "sub"

/-- Modelled from the spec: a `CapabilityBase` value: kind tag plus optional
related type parameter. -/
structure CapabilityBase where
  kind : CapabilityKind
  param : Option Label
deriving DecidableEq, Repr

/-- The canonical rendering delegated to `CapabilityBase` (its `fmt::Display`):
the kind keyword, then the parameter label if present, space separated
(spec literal example: owns(name) renders to the text owns name). -/
def CapabilityBase.render (c : CapabilityBase) : String :=
  match c.param with
  | some l => c.kind.render ++ " " ++ l.render
  | none => c.kind.render

/-- Modelled from the spec: `Relates` (external
`schema::definable::type_::capability::Relates`, not under src/) is the
specialization of `CapabilityBase` restricted to the role-relation capability
kind, carrying the related role label. -/
structure Relates where
  role : Label
deriving DecidableEq, Repr

/-- The canonical rendering delegated to `Relates` (its `fmt::Display`):
spec literal example: relates(parent) renders to the text relates parent. -/
def Relates.render (r : Relates) : String := "relates " ++ r.role.render

/-- Modelled from the spec: the keyword tokens `token::Keyword` used by the
renderers (external, not under src/), with their canonical text fixed by the
templates of spec section 4.2. -/
inductive Keyword
  | kwAs
  | kwFrom
  | kwFun
  | kwStruct
deriving DecidableEq, Repr

/-- Canonical text of each keyword (its `fmt::Display`). -/
def Keyword.render : Keyword → String
  | .kwAs => "as"
  | .kwFrom => "from"
  | .kwFun => "fun"
  | .kwStruct => "struct"

/-- `AnnotationType` (mod.rs lines 45-50): span, annotation category, type
label. The derived `PartialEq`/`Eq` compares all fields, the span included. -/
structure AnnotationType where
  span : Option Span
  annotation_category : AnnotationCategory
  type_ : Label
deriving DecidableEq, Repr

/-- `AnnotationType::new` (mod.rs lines 52-56). -/
def AnnotationType.new (span : Option Span) (annotation_category : AnnotationCategory)
    (type_ : Label) : AnnotationType :=
  { span := span, annotation_category := annotation_category, type_ := type_ }

/-- `impl fmt::Display for AnnotationType` (mod.rs lines 66-70):
at-sign, category, space, keyword from, space, type label. -/
def AnnotationType.render (x : AnnotationType) : String :=
  "@" ++ x.annotation_category.render ++ " " ++ Keyword.kwFrom.render ++ " " ++ x.type_.render

/-- `AnnotationCapability` (mod.rs lines 72-78). -/
structure AnnotationCapability where
  span : Option Span
  annotation_category : AnnotationCategory
  type_ : Label
  capability : CapabilityBase
deriving DecidableEq, Repr

/-- `AnnotationCapability::new` (mod.rs lines 80-89). -/
def AnnotationCapability.new (span : Option Span) (annotation_category : AnnotationCategory)
    (type_ : Label) (capability : CapabilityBase) : AnnotationCapability :=
  { span := span, annotation_category := annotation_category, type_ := type_,
    capability := capability }

/-- `impl fmt::Display for AnnotationCapability` (mod.rs lines 99-103). -/
def AnnotationCapability.render (x : AnnotationCapability) : String :=
  "@" ++ x.annotation_category.render ++ " " ++ Keyword.kwFrom.render ++ " " ++
    x.type_.render ++ " " ++ x.capability.render

/-- `CapabilityType` (mod.rs lines 105-110). -/
structure CapabilityType where
  span : Option Span
  capability : CapabilityBase
  type_ : Label
deriving DecidableEq, Repr

/-- `CapabilityType::new` (mod.rs lines 112-116). -/
def CapabilityType.new (span : Option Span) (capability : CapabilityBase)
    (type_ : Label) : CapabilityType :=
  { span := span, capability := capability, type_ := type_ }

/-- `impl fmt::Display for CapabilityType` (mod.rs lines 126-130). -/
def CapabilityType.render (x : CapabilityType) : String :=
  x.capability.render ++ " " ++ Keyword.kwFrom.render ++ " " ++ x.type_.render

/-- `Specialise` (mod.rs lines 132-138). -/
structure Specialise where
  span : Option Span
  specialised : Label
  type_ : Label
  capability : Relates
deriving DecidableEq, Repr

/-- `Specialise::new` (mod.rs lines 140-144): the `relates` argument is stored
as the `capability` field. -/
def Specialise.new (span : Option Span) (specialised : Label) (type_ : Label)
    (relates : Relates) : Specialise :=
  { span := span, specialised := specialised, type_ := type_, capability := relates }

/-- `impl fmt::Display for Specialise` (mod.rs lines 154-166). -/
def Specialise.render (x : Specialise) : String :=
  Keyword.kwAs.render ++ " " ++ x.specialised.render ++ " " ++ Keyword.kwFrom.render ++
    " " ++ x.type_.render ++ " " ++ x.capability.render

/-- `Function` (mod.rs lines 168-172). -/
structure Function where
  span : Option Span
  ident : Identifier
deriving DecidableEq, Repr

/-- `Function::new` (mod.rs lines 174-178). -/
def Function.new (span : Option Span) (ident : Identifier) : Function :=
  { span := span, ident := ident }

/-- `impl fmt::Display for Function` (mod.rs lines 188-192). -/
def Function.render (x : Function) : String :=
  Keyword.kwFun.render ++ " " ++ x.ident.render

/-- `Struct` (mod.rs lines 194-198). -/
structure Struct where
  span : Option Span
  ident : Identifier
deriving DecidableEq, Repr

/-- `Struct::new` (mod.rs lines 200-204). -/
def Struct.new (span : Option Span) (ident : Identifier) : Struct :=
  { span := span, ident := ident }

/-- `impl fmt::Display for Struct` (mod.rs lines 214-218). -/
def Struct.render (x : Struct) : String :=
  Keyword.kwStruct.render ++ " " ++ x.ident.render

/-- The `Undefinable` union (mod.rs lines 17-27): exactly seven variants. -/
inductive Undefinable
  | type_ (label : Label)
  | annotationType (inner : AnnotationType)
  | annotationCapability (inner : AnnotationCapability)
  | capabilityType (inner : CapabilityType)
  | specialise (inner : Specialise)
  | function (inner : Function)
  | struct_ (inner : Struct)
deriving DecidableEq, Repr

/-- `impl fmt::Display for Undefinable` (mod.rs lines 31-43): a match over all
seven variants, each delegating to the inner value's own renderer, with no
default case. -/
def Undefinable.render : Undefinable → String
  | .type_ inner => inner.render
  | .annotationType inner => inner.render
  | .annotationCapability inner => inner.render
  | .capabilityType inner => inner.render
  | .specialise inner => inner.render
  | .function inner => inner.render
  | .struct_ inner => inner.render

/-- The seven statement shapes of the `Undefinable` union, indexed 0..6; every
index of 7 or more is no shape at all (the union is closed). -/
def VariantShape (x : Undefinable) : Nat → Prop
  | 0 => ∃ l, x = Undefinable.type_ l
  | 1 => ∃ a, x = Undefinable.annotationType a
  | 2 => ∃ a, x = Undefinable.annotationCapability a
  | 3 => ∃ a, x = Undefinable.capabilityType a
  | 4 => ∃ a, x = Undefinable.specialise a
  | 5 => ∃ a, x = Undefinable.function a
  | 6 => ∃ a, x = Undefinable.struct_ a
  | _ + 7 => False

/-- True of a character list that is non-empty and does not start with
whitespace. -/
def headNotWS : List Char → Bool
  | [] => false
  | c :: _ => !c.isWhitespace

/-- True of a character list that is non-empty and does not end with
whitespace. -/
def lastNotWS (l : List Char) : Bool := headNotWS l.reverse

/-- No line break among the characters. -/
def noNewline (l : List Char) : Bool := l.all fun c => c != '\n'

/-- A well-formed rendered token: non-empty, no leading or trailing
whitespace, and single-line. -/
def tokenOk (s : String) : Bool :=
  headNotWS s.data && lastNotWS s.data && noNewline s.data

/-!
Theorems about the embedded model.
-/

lemma headNotWS_append (a b : List Char) (ha : a ≠ []) :
    headNotWS (a ++ b) = headNotWS a := by
  cases a with
  | nil => exact absurd rfl ha
  | cons c cs => rfl

lemma lastNotWS_append (a b : List Char) (hb : b ≠ []) :
    lastNotWS (a ++ b) = lastNotWS b := by
  unfold lastNotWS
  rw [List.reverse_append]
  exact headNotWS_append _ _ (by simpa using hb)

lemma ne_nil_of_headNotWS (l : List Char) (h : headNotWS l = true) : l ≠ [] := by
  cases l with
  | nil => simp [headNotWS] at h
  | cons c cs => simp

lemma tokenOk_parts (s : String) (h : tokenOk s = true) :
    headNotWS s.data = true ∧ lastNotWS s.data = true ∧ noNewline s.data = true := by
  simpa [tokenOk, Bool.and_eq_true, and_assoc] using h

/-- Gluing two well-formed tokens with a single space yields a well-formed
single line. -/
lemma tokenOk_glue (a b : String) (ha : tokenOk a = true) (hb : tokenOk b = true) :
    tokenOk (a ++ " " ++ b) = true := by
  obtain ⟨ha1, ha2, ha3⟩ := tokenOk_parts a ha
  obtain ⟨hb1, hb2, hb3⟩ := tokenOk_parts b hb
  have hna : a.data ≠ [] := ne_nil_of_headNotWS _ ha1
  have hnb : b.data ≠ [] := ne_nil_of_headNotWS _ hb1
  have hdata : (a ++ " " ++ b).data = (a.data ++ [' ']) ++ b.data := by
    rw [String.data_append, String.data_append]
  unfold tokenOk
  rw [hdata, headNotWS_append _ _ (by simp), headNotWS_append _ _ hna,
    lastNotWS_append _ _ hnb]
  simp only [noNewline, List.all_append] at ha3 hb3 ⊢
  simp [ha1, ha2, hb2, ha3, hb3]

/-- Prefixing a well-formed token with the at-sign keeps it well formed. -/
lemma tokenOk_atsign (s : String) (hs : tokenOk s = true) :
    tokenOk ("@" ++ s) = true := by
  obtain ⟨hs1, hs2, hs3⟩ := tokenOk_parts s hs
  have hns : s.data ≠ [] := ne_nil_of_headNotWS _ hs1
  have hdata : ("@" ++ s).data = ['@'] ++ s.data := by
    rw [String.data_append]
  unfold tokenOk
  rw [hdata, headNotWS_append _ _ (by simp), lastNotWS_append _ _ hns]
  simp only [noNewline, List.all_append] at hs3 ⊢
  simp [headNotWS, hs2, hs3]

/-- C1, counterexample: two `AnnotationType` statements with identical
category and type label but one with a span and one without compare unequal
under the derived structural equality, so spans are NOT excluded from
equality. -/
theorem C1_span_in_equality_counterexample :
    Undefinable.annotationType
        (AnnotationType.new (some ⟨0, 4⟩) ⟨"independent"⟩ ⟨"name"⟩) ≠
      Undefinable.annotationType
        (AnnotationType.new none ⟨"independent"⟩ ⟨"name"⟩) := by
  decide

/-- C1, amended: structural equality compares all fields, the span included:
for every span-carrying variant, two values are equal iff their spans AND
their constituent fields all agree. -/
theorem C1_equality_includes_span :
    (∀ (s₁ s₂ : Option Span) (c₁ c₂ : AnnotationCategory) (l₁ l₂ : Label),
      Undefinable.annotationType (AnnotationType.new s₁ c₁ l₁) =
          Undefinable.annotationType (AnnotationType.new s₂ c₂ l₂) ↔
        s₁ = s₂ ∧ c₁ = c₂ ∧ l₁ = l₂) ∧
    (∀ (s₁ s₂ : Option Span) (c₁ c₂ : AnnotationCategory) (l₁ l₂ : Label)
        (b₁ b₂ : CapabilityBase),
      Undefinable.annotationCapability (AnnotationCapability.new s₁ c₁ l₁ b₁) =
          Undefinable.annotationCapability (AnnotationCapability.new s₂ c₂ l₂ b₂) ↔
        s₁ = s₂ ∧ c₁ = c₂ ∧ l₁ = l₂ ∧ b₁ = b₂) ∧
    (∀ (s₁ s₂ : Option Span) (b₁ b₂ : CapabilityBase) (l₁ l₂ : Label),
      Undefinable.capabilityType (CapabilityType.new s₁ b₁ l₁) =
          Undefinable.capabilityType (CapabilityType.new s₂ b₂ l₂) ↔
        s₁ = s₂ ∧ b₁ = b₂ ∧ l₁ = l₂) ∧
    (∀ (s₁ s₂ : Option Span) (p₁ p₂ t₁ t₂ : Label) (r₁ r₂ : Relates),
      Undefinable.specialise (Specialise.new s₁ p₁ t₁ r₁) =
          Undefinable.specialise (Specialise.new s₂ p₂ t₂ r₂) ↔
        s₁ = s₂ ∧ p₁ = p₂ ∧ t₁ = t₂ ∧ r₁ = r₂) ∧
    (∀ (s₁ s₂ : Option Span) (i₁ i₂ : Identifier),
      Undefinable.function (Function.new s₁ i₁) =
          Undefinable.function (Function.new s₂ i₂) ↔
        s₁ = s₂ ∧ i₁ = i₂) ∧
    (∀ (s₁ s₂ : Option Span) (i₁ i₂ : Identifier),
      Undefinable.struct_ (Struct.new s₁ i₁) =
          Undefinable.struct_ (Struct.new s₂ i₂) ↔
        s₁ = s₂ ∧ i₁ = i₂) := by
  refine ⟨?_, ?_, ?_, ?_, ?_, ?_⟩ <;> intros <;>
    simp [AnnotationType.new, AnnotationCapability.new, CapabilityType.new,
      Specialise.new, Function.new, Struct.new]

/-- C2: `render` produces exactly the fixed per-variant template of spec
section 4.2 over the delegated sub-renderings, and in particular a
`CapabilityType` with capability owns(name) and type person renders to
the text owns name from person. -/
theorem C2_render_templates :
    (∀ (l : Label), (Undefinable.type_ l).render = l.render) ∧
    (∀ (s : Option Span) (c : AnnotationCategory) (l : Label),
      (Undefinable.annotationType (AnnotationType.new s c l)).render =
        "@" ++ c.render ++ " from " ++ l.render) ∧
    (∀ (s : Option Span) (c : AnnotationCategory) (l : Label) (b : CapabilityBase),
      (Undefinable.annotationCapability (AnnotationCapability.new s c l b)).render =
        "@" ++ c.render ++ " from " ++ l.render ++ " " ++ b.render) ∧
    (∀ (s : Option Span) (b : CapabilityBase) (l : Label),
      (Undefinable.capabilityType (CapabilityType.new s b l)).render =
        b.render ++ " from " ++ l.render) ∧
    (∀ (s : Option Span) (p t : Label) (r : Relates),
      (Undefinable.specialise (Specialise.new s p t r)).render =
        "as " ++ p.render ++ " from " ++ t.render ++ " " ++ r.render) ∧
    (∀ (s : Option Span) (i : Identifier),
      (Undefinable.function (Function.new s i)).render = "fun " ++ i.render) ∧
    (∀ (s : Option Span) (i : Identifier),
      (Undefinable.struct_ (Struct.new s i)).render = "struct " ++ i.render) ∧
    (Undefinable.capabilityType
        (CapabilityType.new none ⟨CapabilityKind.owns, some ⟨"name"⟩⟩ ⟨"person"⟩)).render =
      "owns name from person" := by
  refine ⟨fun l => rfl, ?_, ?_, ?_, ?_, fun s i => rfl, fun s i => rfl, by decide⟩ <;>
    intros <;> apply String.ext <;>
    simp [Undefinable.render, AnnotationType.render, AnnotationType.new,
      AnnotationCapability.render, AnnotationCapability.new,
      CapabilityType.render, CapabilityType.new,
      Specialise.render, Specialise.new, Keyword.render, String.data_append]

/-- C3: `render` is total (every `Undefinable` value has a rendering) and
deterministic (equal inputs yield identical text). -/
theorem C3_render_total_deterministic :
    (∀ x : Undefinable, ∃ t : String, Undefinable.render x = t) ∧
    (∀ x y : Undefinable, x = y → Undefinable.render x = Undefinable.render y) :=
  ⟨fun x => ⟨Undefinable.render x, rfl⟩, fun _ _ h => by rw [h]⟩

/-- C4: the union is closed with exactly seven variants: every `Undefinable`
value has exactly one of the seven shapes (and no shape of index 7 or more
exists), and the renderer handles each of the seven shapes explicitly by
delegation, with no fallback. -/
theorem C4_closed_seven_variants :
    (∀ x : Undefinable,
      ∃ n : Nat, VariantShape x n ∧ ∀ m : Nat, VariantShape x m → m = n) ∧
    ((∀ (l : Label), (Undefinable.type_ l).render = l.render) ∧
      (∀ (a : AnnotationType), (Undefinable.annotationType a).render = a.render) ∧
      (∀ (a : AnnotationCapability),
        (Undefinable.annotationCapability a).render = a.render) ∧
      (∀ (a : CapabilityType), (Undefinable.capabilityType a).render = a.render) ∧
      (∀ (a : Specialise), (Undefinable.specialise a).render = a.render) ∧
      (∀ (a : Function), (Undefinable.function a).render = a.render) ∧
      (∀ (a : Struct), (Undefinable.struct_ a).render = a.render)) := by
  constructor
  · intro x
    cases x with
    | type_ l =>
      refine ⟨0, ⟨l, rfl⟩, fun m hm => ?_⟩
      rcases m with _ | _ | _ | _ | _ | _ | _ | m <;> simp_all [VariantShape]
    | annotationType a =>
      refine ⟨1, ⟨a, rfl⟩, fun m hm => ?_⟩
      rcases m with _ | _ | _ | _ | _ | _ | _ | m <;> simp_all [VariantShape]
    | annotationCapability a =>
      refine ⟨2, ⟨a, rfl⟩, fun m hm => ?_⟩
      rcases m with _ | _ | _ | _ | _ | _ | _ | m <;> simp_all [VariantShape]
    | capabilityType a =>
      refine ⟨3, ⟨a, rfl⟩, fun m hm => ?_⟩
      rcases m with _ | _ | _ | _ | _ | _ | _ | m <;> simp_all [VariantShape]
    | specialise a =>
      refine ⟨4, ⟨a, rfl⟩, fun m hm => ?_⟩
      rcases m with _ | _ | _ | _ | _ | _ | _ | m <;> simp_all [VariantShape]
    | function a =>
      refine ⟨5, ⟨a, rfl⟩, fun m hm => ?_⟩
      rcases m with _ | _ | _ | _ | _ | _ | _ | m <;> simp_all [VariantShape]
    | struct_ a =>
      refine ⟨6, ⟨a, rfl⟩, fun m hm => ?_⟩
      rcases m with _ | _ | _ | _ | _ | _ | _ | m <;> simp_all [VariantShape]
  · exact ⟨fun _ => rfl, fun _ => rfl, fun _ => rfl, fun _ => rfl, fun _ => rfl,
      fun _ => rfl, fun _ => rfl⟩

/-- C5: every span-carrying variant returns through its uniform `span`
accessor exactly the span it was constructed with, including the absent
case (the `Type` variant carries a bare `Label` and has no span field). -/
theorem C5_span_accessor :
    (∀ (s : Option Span) (c : AnnotationCategory) (l : Label),
      (AnnotationType.new s c l).span = s) ∧
    (∀ (s : Option Span) (c : AnnotationCategory) (l : Label) (b : CapabilityBase),
      (AnnotationCapability.new s c l b).span = s) ∧
    (∀ (s : Option Span) (b : CapabilityBase) (l : Label),
      (CapabilityType.new s b l).span = s) ∧
    (∀ (s : Option Span) (p t : Label) (r : Relates),
      (Specialise.new s p t r).span = s) ∧
    (∀ (s : Option Span) (i : Identifier), (Function.new s i).span = s) ∧
    (∀ (s : Option Span) (i : Identifier), (Struct.new s i).span = s) :=
  ⟨fun _ _ _ => rfl, fun _ _ _ _ => rfl, fun _ _ _ => rfl, fun _ _ _ _ => rfl,
    fun _ _ => rfl, fun _ _ => rfl⟩

/-- C6: the `Specialise` statement with specialised father, type fathership
and capability relates(parent) renders to exactly the text
as father from fathership relates parent. -/
theorem C6_specialise_example :
    (Undefinable.specialise
        (Specialise.new none ⟨"father"⟩ ⟨"fathership"⟩ ⟨⟨"parent"⟩⟩)).render =
      "as father from fathership relates parent" := by
  decide

/-- C7: the span never participates in rendering: replacing the span of any
span-carrying statement by any other span (or none) leaves `render`
unchanged. -/
theorem C7_render_ignores_span :
    (∀ (s₁ s₂ : Option Span) (c : AnnotationCategory) (l : Label),
      (Undefinable.annotationType (AnnotationType.new s₁ c l)).render =
        (Undefinable.annotationType (AnnotationType.new s₂ c l)).render) ∧
    (∀ (s₁ s₂ : Option Span) (c : AnnotationCategory) (l : Label) (b : CapabilityBase),
      (Undefinable.annotationCapability (AnnotationCapability.new s₁ c l b)).render =
        (Undefinable.annotationCapability (AnnotationCapability.new s₂ c l b)).render) ∧
    (∀ (s₁ s₂ : Option Span) (b : CapabilityBase) (l : Label),
      (Undefinable.capabilityType (CapabilityType.new s₁ b l)).render =
        (Undefinable.capabilityType (CapabilityType.new s₂ b l)).render) ∧
    (∀ (s₁ s₂ : Option Span) (p t : Label) (r : Relates),
      (Undefinable.specialise (Specialise.new s₁ p t r)).render =
        (Undefinable.specialise (Specialise.new s₂ p t r)).render) ∧
    (∀ (s₁ s₂ : Option Span) (i : Identifier),
      (Undefinable.function (Function.new s₁ i)).render =
        (Undefinable.function (Function.new s₂ i)).render) ∧
    (∀ (s₁ s₂ : Option Span) (i : Identifier),
      (Undefinable.struct_ (Struct.new s₁ i)).render =
        (Undefinable.struct_ (Struct.new s₂ i)).render) :=
  ⟨fun _ _ _ _ => rfl, fun _ _ _ _ _ => rfl, fun _ _ _ _ => rfl,
    fun _ _ _ _ _ => rfl, fun _ _ _ => rfl, fun _ _ _ => rfl⟩

/-- C8: whenever the delegated sub-renderings are non-empty, single-line and
free of leading and trailing whitespace, the rendered statement separates
adjacent tokens by exactly one space (it is the single-space intercalation of
its tokens) and is itself non-empty, single-line and free of leading and
trailing whitespace. -/
theorem C8_single_line_single_space :
    (∀ (l : Label), tokenOk l.render = true →
      tokenOk (Undefinable.type_ l).render = true ∧
        (Undefinable.type_ l).render = String.intercalate " " [l.render]) ∧
    (∀ (s : Option Span) (c : AnnotationCategory) (l : Label),
      tokenOk c.render = true → tokenOk l.render = true →
        tokenOk (Undefinable.annotationType (AnnotationType.new s c l)).render = true ∧
          (Undefinable.annotationType (AnnotationType.new s c l)).render =
            String.intercalate " " ["@" ++ c.render, "from", l.render]) ∧
    (∀ (s : Option Span) (c : AnnotationCategory) (l : Label) (b : CapabilityBase),
      tokenOk c.render = true → tokenOk l.render = true → tokenOk b.render = true →
        tokenOk (Undefinable.annotationCapability
            (AnnotationCapability.new s c l b)).render = true ∧
          (Undefinable.annotationCapability (AnnotationCapability.new s c l b)).render =
            String.intercalate " " ["@" ++ c.render, "from", l.render, b.render]) ∧
    (∀ (s : Option Span) (b : CapabilityBase) (l : Label),
      tokenOk b.render = true → tokenOk l.render = true →
        tokenOk (Undefinable.capabilityType (CapabilityType.new s b l)).render = true ∧
          (Undefinable.capabilityType (CapabilityType.new s b l)).render =
            String.intercalate " " [b.render, "from", l.render]) ∧
    (∀ (s : Option Span) (p t : Label) (r : Relates),
      tokenOk p.render = true → tokenOk t.render = true → tokenOk r.render = true →
        tokenOk (Undefinable.specialise (Specialise.new s p t r)).render = true ∧
          (Undefinable.specialise (Specialise.new s p t r)).render =
            String.intercalate " " ["as", p.render, "from", t.render, r.render]) ∧
    (∀ (s : Option Span) (i : Identifier), tokenOk i.render = true →
      tokenOk (Undefinable.function (Function.new s i)).render = true ∧
        (Undefinable.function (Function.new s i)).render =
          String.intercalate " " ["fun", i.render]) ∧
    (∀ (s : Option Span) (i : Identifier), tokenOk i.render = true →
      tokenOk (Undefinable.struct_ (Struct.new s i)).render = true ∧
        (Undefinable.struct_ (Struct.new s i)).render =
          String.intercalate " " ["struct", i.render]) := by
  refine ⟨fun l hl => ⟨hl, rfl⟩, ?_, ?_, ?_, ?_, ?_, ?_⟩
  · intro s c l hc hl
    exact ⟨tokenOk_glue _ _ (tokenOk_glue _ _ (tokenOk_atsign _ hc) (by decide)) hl, rfl⟩
  · intro s c l b hc hl hb
    exact ⟨tokenOk_glue _ _
      (tokenOk_glue _ _ (tokenOk_glue _ _ (tokenOk_atsign _ hc) (by decide)) hl) hb, rfl⟩
  · intro s b l hb hl
    exact ⟨tokenOk_glue _ _ (tokenOk_glue _ _ hb (by decide)) hl, rfl⟩
  · intro s p t r hp ht hr
    exact ⟨tokenOk_glue _ _
      (tokenOk_glue _ _ (tokenOk_glue _ _ (tokenOk_glue _ _ (by decide) hp) (by decide)) ht)
      hr, rfl⟩
  · intro s i hi
    exact ⟨tokenOk_glue _ _ (by decide) hi, rfl⟩
  · intro s i hi
    exact ⟨tokenOk_glue _ _ (by decide) hi, rfl⟩

/-- C9: every per-variant constructor is infallible and stores its arguments
unmodified: each field of the constructed value is exactly the corresponding
argument. -/
theorem C9_constructors_store_fields :
    (∀ (s : Option Span) (c : AnnotationCategory) (l : Label),
      (AnnotationType.new s c l).span = s ∧
        (AnnotationType.new s c l).annotation_category = c ∧
        (AnnotationType.new s c l).type_ = l) ∧
    (∀ (s : Option Span) (c : AnnotationCategory) (l : Label) (b : CapabilityBase),
      (AnnotationCapability.new s c l b).span = s ∧
        (AnnotationCapability.new s c l b).annotation_category = c ∧
        (AnnotationCapability.new s c l b).type_ = l ∧
        (AnnotationCapability.new s c l b).capability = b) ∧
    (∀ (s : Option Span) (b : CapabilityBase) (l : Label),
      (CapabilityType.new s b l).span = s ∧
        (CapabilityType.new s b l).capability = b ∧
        (CapabilityType.new s b l).type_ = l) ∧
    (∀ (s : Option Span) (p t : Label) (r : Relates),
      (Specialise.new s p t r).span = s ∧
        (Specialise.new s p t r).specialised = p ∧
        (Specialise.new s p t r).type_ = t ∧
        (Specialise.new s p t r).capability = r) ∧
    (∀ (s : Option Span) (i : Identifier),
      (Function.new s i).span = s ∧ (Function.new s i).ident = i) ∧
    (∀ (s : Option Span) (i : Identifier),
      (Struct.new s i).span = s ∧ (Struct.new s i).ident = i) :=
  ⟨fun _ _ _ => ⟨rfl, rfl, rfl⟩, fun _ _ _ _ => ⟨rfl, rfl, rfl, rfl⟩,
    fun _ _ _ => ⟨rfl, rfl, rfl⟩, fun _ _ _ _ => ⟨rfl, rfl, rfl, rfl⟩,
    fun _ _ => ⟨rfl, rfl⟩, fun _ _ => ⟨rfl, rfl⟩⟩

/-- C10: rendering the wrapped union value delegates exactly to the inner
value's own renderer, character for character, on every variant. -/
theorem C10_render_delegation :
    (∀ (l : Label), (Undefinable.type_ l).render = l.render) ∧
    (∀ (x : AnnotationType), (Undefinable.annotationType x).render = x.render) ∧
    (∀ (x : AnnotationCapability),
      (Undefinable.annotationCapability x).render = x.render) ∧
    (∀ (x : CapabilityType), (Undefinable.capabilityType x).render = x.render) ∧
    (∀ (x : Specialise), (Undefinable.specialise x).render = x.render) ∧
    (∀ (x : Function), (Undefinable.function x).render = x.render) ∧
    (∀ (x : Struct), (Undefinable.struct_ x).render = x.render) :=
  ⟨fun _ => rfl, fun _ => rfl, fun _ => rfl, fun _ => rfl, fun _ => rfl,
    fun _ => rfl, fun _ => rfl⟩

end Graql
